import Mathlib

set_option linter.unusedVariables false

/-!
Shallow embedding of the twitter-cli core.

Sources embedded:
- data model: src/types/index.ts (Tweet, TwitterUser, TweetMetrics, Config, SearchOptions)
- mock data synthesizer: src/lib/mock-data.ts (generateMockTweets, generateMockReplies,
  generateMockUserTweets, hashString)
- cache: src/lib/cache.ts (getCache, setCache, lazy load, eviction on expired read)
- orchestrator: src/lib/api.ts (searchTweets, getReplies, getUserTweets, parseTweet)
- CSV formatting: src/lib/format.ts formatCsv (same escaping in src/lib/formatter.ts)

Conventions: JS Date instants are epoch milliseconds (Nat); `Math.random`-derived
ids and timestamps are supplied by explicit streams `ids : Nat → String` and
`dates : Nat → Nat` indexed by the loop counter; TS `number` arguments that may be
negative are Int; optional TS parameters are Option with the TS default substituted
exactly where the source substitutes it.
-/

structure TwitterUser where
  id : String
  username : String
  name : String
  verified : Bool
  followers_count : Nat
deriving DecidableEq, Repr

structure TweetMetrics where
  likes : Nat
  retweets : Nat
  replies : Nat
  views : Nat
deriving DecidableEq, Repr

structure Tweet where
  id : String
  text : String
  author : TwitterUser
  created_at : Nat
  metrics : TweetMetrics
  url : String
  conversation_id : Option String := none
  in_reply_to_id : Option String := none
  lang : Option String := none
deriving DecidableEq, Repr

/-- src/lib/mock-data.ts MOCK_USERS -/
def MOCK_USERS : List TwitterUser := [
  ⟨"1", "elonmusk", "Elon Musk", true, 170000000⟩,
  ⟨"2", "sama", "Sam Altman", true, 3200000⟩,
  ⟨"3", "karpathy", "Andrej Karpathy", true, 850000⟩,
  ⟨"4", "naval", "Naval", true, 2100000⟩,
  ⟨"5", "paulg", "Paul Graham", true, 1600000⟩,
  ⟨"6", "lexfridman", "Lex Fridman", true, 3800000⟩,
  ⟨"7", "techcrunch", "TechCrunch", true, 12400000⟩,
  ⟨"8", "anotheruser", "Tech Enthusiast", false, 45000⟩]

structure MockTemplate where
  text : String
  metrics : TweetMetrics
deriving DecidableEq, Repr

/-- src/lib/mock-data.ts MOCK_TWEET_TEMPLATES (9 templates) -/
def MOCK_TWEET_TEMPLATES : List MockTemplate := [
  ⟨"AI agents are going to change everything. The next generation of software will be autonomous and self-improving.", ⟨45200, 12100, 3400, 2100000⟩⟩,
  ⟨"Just shipped a major update. The feedback loop between building and learning is everything.", ⟨18500, 2300, 890, 650000⟩⟩,
  ⟨"The best time to start building was yesterday. The second best time is now. Stop planning, start doing.", ⟨32100, 8900, 1200, 1800000⟩⟩,
  ⟨"Hot take: Most \"AI startups\" are just wrappers around GPT-4. The real innovation is in the infrastructure layer.", ⟨8900, 2100, 780, 420000⟩⟩,
  ⟨"Simplicity is the ultimate sophistication. Ship the MVP, gather feedback, iterate. Repeat forever.", ⟨15600, 3400, 450, 890000⟩⟩,
  ⟨"The terminal is making a comeback. CLI tools are faster, scriptable, and composable. GUIs are overrated.", ⟨6700, 1200, 340, 280000⟩⟩,
  ⟨"Reading code is more important than writing code. You learn patterns, avoid mistakes, and understand systems deeply.", ⟨12300, 2800, 520, 560000⟩⟩,
  ⟨"Open source is eating the world. The best software is built in public by passionate communities.", ⟨21400, 5600, 980, 1200000⟩⟩,
  ⟨"Working on something new. Can't share details yet but it's going to be transformative. Stay tuned.", ⟨54000, 8200, 4100, 3500000⟩⟩]

/-- src/lib/mock-data.ts generateMockReplies local replyTemplates (8 templates);
the third text transcribes the file's literal bytes. -/
def REPLY_TEMPLATES : List MockTemplate := [
  ⟨"This is absolutely right. Been saying this for years.", ⟨450, 23, 12, 8500⟩⟩,
  ⟨"I disagree. Here's why...", ⟨120, 8, 45, 3200⟩⟩,
  ⟨"ðŸ”¥ðŸ”¥ðŸ”¥", ⟨890, 12, 5, 12000⟩⟩,
  ⟨"Can you elaborate on this point?", ⟨67, 2, 8, 1800⟩⟩,
  ⟨"Bookmarked. This is gold.", ⟨234, 15, 3, 4500⟩⟩,
  ⟨"The nuance here is important. Most people miss it.", ⟨340, 28, 18, 6200⟩⟩,
  ⟨"Hard agree. Building in public changed everything for me.", ⟨156, 9, 7, 2900⟩⟩,
  ⟨"This didn't age well lol", ⟨78, 4, 22, 2100⟩⟩]

/-- src/lib/mock-data.ts hashString: sum of UTF-16 code units (ASCII-faithful). -/
def hashString (s : String) : Nat := (s.data.map Char.toNat).sum

/-- The inner `while (usedTemplates.has(templateIdx) && usedTemplates.size < pool)` loop
of generateMockTweets: step `(j+1) % pool` until a free index is found. Fuel 9 is
enough for every reachable call (at most 8 used indices, all below 9). -/
def pickFree (used : List Nat) (poolSize : Nat) : Nat → Nat → Nat
  | 0, j => j
  | fuel + 1, j =>
    if j ∈ used ∧ used.length < poolSize then pickFree used poolSize fuel ((j + 1) % poolSize)
    else j

/-- The selection part of the generateMockTweets loop: for each loop index `i`
(in order), the chosen `(i, templateIdx, userIdx)`; `usedTemplates` is carried as a
list of already chosen template indices. -/
def genSelAux (seed : Nat) : Nat → Nat → List Nat → List (Nat × Nat × Nat)
  | 0, _, _ => []
  | n + 1, i, used =>
    let tIdx := pickFree used 9 9 ((seed + i * 7) % 9)
    (i, tIdx, (seed + i * 3) % 8) :: genSelAux seed n (i + 1) (tIdx :: used)

def genSelections (seed n : Nat) : List (Nat × Nat × Nat) := genSelAux seed n 0 []

def emptyTemplate : MockTemplate := ⟨"", ⟨0, 0, 0, 0⟩⟩

def emptyUser : TwitterUser := ⟨"", "", "", false, 0⟩

/-- The tweet built in one generateMockTweets iteration from its selection triple. -/
def buildMockTweet (ids : Nat → String) (dates : Nat → Nat) (sel : Nat × Nat × Nat) : Tweet :=
  let template := MOCK_TWEET_TEMPLATES.getD sel.2.1 emptyTemplate
  let user := MOCK_USERS.getD sel.2.2 emptyUser
  let tweetId := ids sel.1
  { id := tweetId, text := template.text, author := user, created_at := dates sel.1,
    metrics := template.metrics,
    url := "https://twitter.com/" ++ user.username ++ "/status/" ++ tweetId }

/-- `tweets.sort((a, b) => b.metrics.likes - a.metrics.likes)`: ES2019 Array sort is
stable; insertion places each earlier element before the later ones of equal likes. -/
def insertByLikes (t : Tweet) : List Tweet → List Tweet
  | [] => [t]
  | u :: us => if u.metrics.likes ≤ t.metrics.likes then t :: u :: us else u :: insertByLikes t us

def sortByLikesDesc : List Tweet → List Tweet
  | [] => []
  | t :: ts => insertByLikes t (sortByLikesDesc ts)

/-- src/lib/mock-data.ts generateMockTweets. `hoursAgo` only shapes the random
created_at distribution, surfaced through the `dates` stream. -/
def generateMockTweets (query : String) (limit : Int) (hoursAgo : Nat)
    (ids : Nat → String) (dates : Nat → Nat) : List Tweet :=
  let seed := hashString query
  let sels := genSelections seed (min limit 9).toNat
  sortByLikesDesc (sels.map (buildMockTweet ids dates))

/-- src/lib/mock-data.ts generateMockReplies. -/
def generateMockReplies (tweetId : String) (limit : Int)
    (ids : Nat → String) (dates : Nat → Nat) : List Tweet :=
  let n := (min limit 8).toNat
  sortByLikesDesc ((List.range n).map (fun i =>
    let template := REPLY_TEMPLATES.getD i emptyTemplate
    let user := MOCK_USERS.getD ((i + 3) % 8) emptyUser
    let replyId := ids i
    { id := replyId, text := template.text, author := user, created_at := dates i,
      metrics := template.metrics,
      url := "https://twitter.com/" ++ user.username ++ "/status/" ++ replyId,
      in_reply_to_id := some tweetId }))

def lowerStr (s : String) : String := String.mk (s.data.map Char.toLower)

/-- `username.charAt(0).toUpperCase() + username.slice(1)` -/
def capitalizeFirst (s : String) : String :=
  match s.data with
  | [] => ""
  | c :: rest => String.mk (Char.toUpper c :: rest)

def findMockUser (username : String) : Option TwitterUser :=
  MOCK_USERS.find? (fun u => lowerStr u.username = lowerStr username)

/-- src/lib/mock-data.ts generateMockUserTweets. -/
def generateMockUserTweets (username : String) (limit : Int)
    (ids : Nat → String) (dates : Nat → Nat) : List Tweet :=
  let user := (findMockUser username).getD ⟨"999", username, capitalizeFirst username, false, 1000⟩
  let n := (min limit 9).toNat
  sortByLikesDesc ((List.range n).map (fun i =>
    let template := MOCK_TWEET_TEMPLATES.getD i emptyTemplate
    let tweetId := ids i
    { id := tweetId, text := template.text, author := user, created_at := dates i,
      metrics := template.metrics,
      url := "https://twitter.com/" ++ user.username ++ "/status/" ++ tweetId }))

/-! ## Configuration and cache (src/lib/config.ts, src/lib/cache.ts) -/

/-- Configuration as loaded from the config file; `none` means the key is absent,
in which case loadConfig's spread of DEFAULT_CONFIG supplies the default.
`bearerToken` is the resolved credential (env var or file). -/
structure Config where
  bearerToken : Option String := none
  cacheEnabled : Option Bool := none
  cacheTtlMinutes : Option Nat := none
deriving DecidableEq, Repr

/-- `config.cacheEnabled !== false` (default true). -/
def isCacheEnabled (c : Config) : Bool := c.cacheEnabled ≠ some false

/-- `(config.cacheTtlMinutes || 15) * 60 * 1000`; a stored 0 is falsy in JS. -/
def getCacheTtl (c : Config) : Nat :=
  (match c.cacheTtlMinutes with
   | some n => if n = 0 then 15 else n
   | none => 15) * 60 * 1000

/-- `!getBearerToken()`; the empty string is falsy. -/
def isDemoMode (c : Config) : Bool :=
  match c.bearerToken with
  | none => true
  | some s => s.isEmpty

structure CacheEntry where
  data : List Tweet
  timestamp : Nat
  ttl : Nat
deriving DecidableEq, Repr

/-- The memoryCache / cache.json object: an association list keyed by string. -/
abbrev Store := List (String × CacheEntry)

def storeLookup : Store → String → Option CacheEntry
  | [], _ => none
  | (k, e) :: rest, key => if k = key then some e else storeLookup rest key

def storeErase : Store → String → Store
  | [], _ => []
  | (k, e) :: rest, key => if k = key then storeErase rest key else (k, e) :: storeErase rest key

def storeInsert : Store → String → CacheEntry → Store
  | [], key, e => [(key, e)]
  | (k, e0) :: rest, key, e => if k = key then (key, e) :: rest else (k, e0) :: storeInsert rest key e

/-- Module state of src/lib/cache.ts: in-process memoryCache, the cache.json file
content, and the cacheLoaded flag. -/
structure CacheState where
  memory : Store
  file : Store
  cacheLoaded : Bool
deriving DecidableEq, Repr

/-- loadCacheFromDisk (success path; a corrupt file reads as empty, not modelled). -/
def loadDisk (st : CacheState) : CacheState :=
  if st.cacheLoaded then st else { st with memory := st.file, cacheLoaded := true }

/-- getCache: disabled short-circuit, lazy load, expiry check with eviction.
Returns the payload (if any) together with the new module state. -/
def getCacheM (cfg : Config) (now : Nat) (key : String) (st : CacheState) :
    Option (List Tweet) × CacheState :=
  if isCacheEnabled cfg then
    let st := loadDisk st
    match storeLookup st.memory key with
    | none => (none, st)
    | some e =>
      if now - e.timestamp > e.ttl then (none, { st with memory := storeErase st.memory key })
      else (some e.data, st)
  else (none, st)

/-- setCache: disabled no-op, lazy load, write entry, flush to disk
(`ttl || getCacheTtl()`: an explicit 0 is falsy). -/
def setCacheM (cfg : Config) (now : Nat) (key : String) (data : List Tweet)
    (ttl : Option Nat) (st : CacheState) : CacheState :=
  if isCacheEnabled cfg then
    let st := loadDisk st
    let eff := match ttl with
      | some t => if t = 0 then getCacheTtl cfg else t
      | none => getCacheTtl cfg
    let m := storeInsert st.memory key ⟨data, now, eff⟩
    { memory := m, file := m, cacheLoaded := st.cacheLoaded }
  else st

/-! ## Cache keys and the search options object (src/lib/api.ts) -/

/-- SearchOptions from src/types/index.ts; field order is the object-literal order
used at the call sites, which is the JSON.stringify property order. -/
structure SearchOptions where
  query : String
  time : Option String := none
  minLikes : Option Nat := none
  minRetweets : Option Nat := none
  verified : Option Bool := none
  limit : Option Int := none
  sort : Option String := none
  lang : Option String := none
deriving DecidableEq, Repr

def jsonEscapeChar (c : Char) : String :=
  if c = '"' then "\\\""
  else if c = '\\' then "\\\\"
  else if c = '\n' then "\\n"
  else if c = '\r' then "\\r"
  else if c = '\t' then "\\t"
  else String.singleton c

def jsonString (s : String) : String :=
  "\"" ++ String.join (s.data.map jsonEscapeChar) ++ "\""

def jsonBool (b : Bool) : String := if b then "true" else "false"

/-- JSON.stringify(options): present fields in property order, undefined omitted. -/
def searchOptionsFields (o : SearchOptions) : List (Option String) :=
  [some ("\"query\":" ++ jsonString o.query),
   o.time.map (fun v => "\"time\":" ++ jsonString v),
   o.minLikes.map (fun v => "\"minLikes\":" ++ toString v),
   o.minRetweets.map (fun v => "\"minRetweets\":" ++ toString v),
   o.verified.map (fun v => "\"verified\":" ++ jsonBool v),
   o.limit.map (fun v => "\"limit\":" ++ toString v),
   o.sort.map (fun v => "\"sort\":" ++ jsonString v),
   o.lang.map (fun v => "\"lang\":" ++ jsonString v)]

def jsonStringifyOptions (o : SearchOptions) : String :=
  "\x7b" ++ String.intercalate "," (searchOptionsFields o).reduceOption ++ "\x7d"

/-- api.ts line 115: `search:` + JSON.stringify(options), on the options as passed. -/
def searchCacheKey (o : SearchOptions) : String := "search:" ++ jsonStringifyOptions o

/-- api.ts line 177: `replies:` + tweetId + `:` + limit (limit already defaulted). -/
def repliesCacheKey (tweetId : String) (limit : Int) : String :=
  "replies:" ++ tweetId ++ ":" ++ toString limit

/-- api.ts line 225: `user:` + username.toLowerCase() + `:` + limit. -/
def userCacheKey (username : String) (limit : Int) : String :=
  "user:" ++ lowerStr username ++ ":" ++ toString limit

/-! ## Network response shapes and parseTweet (src/lib/api.ts) -/

/-- The fields of a raw API tweet object consumed by parseTweet; `created_at` is
the instant parsed from the ISO string. Absent public_metrics counts read as 0. -/
structure RawTweet where
  id : String
  text : String
  author_id : String
  created_at : Nat
  like_count : Option Nat := none
  retweet_count : Option Nat := none
  reply_count : Option Nat := none
  impression_count : Option Nat := none
  conversation_id : Option String := none
  in_reply_to_user_id : Option String := none
  lang : Option String := none
deriving DecidableEq, Repr

structure RawUser where
  id : String
  username : String
  name : String
  verified : Option Bool := none
  followers_count : Option Nat := none
deriving DecidableEq, Repr

/-- api.ts parseTweet (lines 77-107): the `|| 0` / `|| false` defaults and the
derived url. -/
def parseTweet (tweetData : RawTweet) (userData : RawUser) : Tweet :=
  let author : TwitterUser :=
    { id := userData.id, username := userData.username, name := userData.name,
      verified := userData.verified.getD false,
      followers_count := userData.followers_count.getD 0 }
  { id := tweetData.id, text := tweetData.text, author := author,
    created_at := tweetData.created_at,
    metrics := { likes := tweetData.like_count.getD 0,
                 retweets := tweetData.retweet_count.getD 0,
                 replies := tweetData.reply_count.getD 0,
                 views := tweetData.impression_count.getD 0 },
    url := "https://twitter.com/" ++ userData.username ++ "/status/" ++ tweetData.id,
    conversation_id := tweetData.conversation_id,
    in_reply_to_id := tweetData.in_reply_to_user_id,
    lang := tweetData.lang }

/-- The search endpoint's parsed body: optional `data` array and `includes.users`. -/
structure NetSearchResponse where
  data : Option (List RawTweet)
  users : List RawUser
deriving DecidableEq, Repr

/-- usersMap.get(author_id): the Map keeps the last user set under an id. -/
def findUser (users : List RawUser) (aid : String) : Option RawUser :=
  users.foldl (fun acc u => if u.id = aid then some u else acc) none

/-- The fallback user object for an author_id missing from includes.users. -/
def unknownUser (aid : String) : RawUser :=
  { id := aid, username := "unknown", name := "Unknown", verified := some false }

def parsedSearchTweets (net : NetSearchResponse) : List Tweet :=
  (net.data.getD []).map (fun tw => parseTweet tw ((findUser net.users tw.author_id).getD (unknownUser tw.author_id)))

/-- `tweets.slice(0, limit)`: a negative end counts from the end of the array. -/
def sliceTo (n : Int) (l : List Tweet) : List Tweet :=
  if 0 ≤ n then l.take n.toNat else l.take (l.length - (-n).toNat)

/-- `{ ...t, created_at: new Date(t.created_at) }` on each cached record; on instants
the serialize/rehydrate round trip is the identity on the modelled field. -/
def rehydrateTweets (l : List Tweet) : List Tweet :=
  l.map (fun t => { t with created_at := t.created_at })

structure ApiResponse where
  data : List Tweet
  fromCache : Bool
deriving DecidableEq, Repr

def hoursMapLookup (t : String) : Option Nat :=
  if t = "1h" then some 1
  else if t = "24h" then some 24
  else if t = "7d" then some 168
  else if t = "30d" then some 720
  else none

/-- The demo-path hours: `time ? hoursMap[time] || 168 : 168`. -/
def demoHours (time : Option String) : Nat :=
  match time with
  | some t => (hoursMapLookup t).getD 168
  | none => 168

/-- api.ts searchTweets (lines 113-174): cache-hit short circuit, demo fallback,
network parse / popular sort / slice / cache write. A dataless response returns
early and is not cached. -/
def searchTweetsM (cfg : Config) (now : Nat) (net : NetSearchResponse)
    (ids : Nat → String) (dates : Nat → Nat)
    (options : SearchOptions) (st : CacheState) : ApiResponse × CacheState :=
  let limit : Int := options.limit.getD 10
  let sort := options.sort.getD "popular"
  let cacheKey := searchCacheKey options
  match getCacheM cfg now cacheKey st with
  | (some cached, st) => ({ data := rehydrateTweets cached, fromCache := true }, st)
  | (none, st) =>
    if isDemoMode cfg then
      ({ data := generateMockTweets options.query limit (demoHours options.time) ids dates,
         fromCache := false }, st)
    else
      match net.data with
      | none => ({ data := [], fromCache := false }, st)
      | some _ =>
        let tweets := parsedSearchTweets net
        let tweets := if sort = "popular" then sortByLikesDesc tweets else tweets
        let tweets := sliceTo limit tweets
        ({ data := tweets, fromCache := false }, setCacheM cfg now cacheKey tweets none st)

/-- api.ts getReplies (lines 176-222); `limitArg = none` models an omitted argument,
substituted by the TS default parameter `limit = 10`. -/
def getRepliesM (cfg : Config) (now : Nat) (net : NetSearchResponse)
    (ids : Nat → String) (dates : Nat → Nat)
    (tweetId : String) (limitArg : Option Int) (st : CacheState) : ApiResponse × CacheState :=
  let limit := limitArg.getD 10
  let cacheKey := repliesCacheKey tweetId limit
  match getCacheM cfg now cacheKey st with
  | (some cached, st) => ({ data := rehydrateTweets cached, fromCache := true }, st)
  | (none, st) =>
    if isDemoMode cfg then
      ({ data := generateMockReplies tweetId limit ids dates, fromCache := false }, st)
    else
      match net.data with
      | none => ({ data := [], fromCache := false }, st)
      | some _ =>
        let tweets := sliceTo limit (sortByLikesDesc (parsedSearchTweets net))
        ({ data := tweets, fromCache := false }, setCacheM cfg now cacheKey tweets none st)

/-- api.ts getUserTweets (lines 224-266): resolve user then fetch timeline;
`none` result models the thrown `User not found` error. -/
def getUserTweetsM (cfg : Config) (now : Nat) (netUser : Option RawUser)
    (netTweets : Option (List RawTweet)) (ids : Nat → String) (dates : Nat → Nat)
    (username : String) (limitArg : Option Int) (st : CacheState) :
    Option (ApiResponse × CacheState) :=
  let limit := limitArg.getD 10
  let cacheKey := userCacheKey username limit
  match getCacheM cfg now cacheKey st with
  | (some cached, st) => some ({ data := rehydrateTweets cached, fromCache := true }, st)
  | (none, st) =>
    if isDemoMode cfg then
      some ({ data := generateMockUserTweets username limit ids dates, fromCache := false }, st)
    else
      match netUser with
      | none => none
      | some userData =>
        match netTweets with
        | none => some ({ data := [], fromCache := false }, st)
        | some rawTweets =>
          let tweets := sliceTo limit (sortByLikesDesc (rawTweets.map (fun tw => parseTweet tw userData)))
          some ({ data := tweets, fromCache := false }, setCacheM cfg now cacheKey tweets none st)

/-! ## CSV formatting (src/lib/format.ts formatCsv; same logic in formatter.ts) -/

/-- `t.text.replace(/\n/g, ' ')` -/
def replaceNewlines (s : List Char) : List Char :=
  s.map (fun c => if c = '\n' then ' ' else c)

/-- `str.replace(/"/g, '""')` -/
def doubleQuotes : List Char → List Char
  | [] => []
  | c :: rest => if c = '"' then '"' :: '"' :: doubleQuotes rest else c :: doubleQuotes rest

def hasCsvSpecial (s : List Char) : Bool := s.contains ',' || s.contains '"' || s.contains '\n'

/-- formatCsv's escapeCSV: quote and double the quotes only when a special
character is present. -/
def escapeCSV (s : List Char) : List Char :=
  if hasCsvSpecial s then '"' :: (doubleQuotes s ++ ['"']) else s

/-- The CSV field emitted for a record's text: newlines replaced, then escaped. -/
def csvTextField (text : List Char) : List Char := escapeCSV (replaceNewlines text)

/-- Standard CSV field parsing (RFC 4180): a quoted field drops the outer quotes
and collapses doubled quotes; anything else is literal. -/
def collapseQuotes : List Char → List Char
  | [] => []
  | [c] => [c]
  | c :: d :: rest =>
    if c = '"' ∧ d = '"' then '"' :: collapseQuotes rest
    else c :: collapseQuotes (d :: rest)

def csvParseField (f : List Char) : List Char :=
  if 2 ≤ f.length ∧ f.head? = some '"' ∧ f.getLast? = some '"' then
    collapseQuotes (f.drop 1).dropLast
  else f

def likesGE (a b : Tweet) : Prop := b.metrics.likes ≤ a.metrics.likes

/-- The template/author-determined parts of a record, shared by two runs that
differ only in the random id and timestamp streams. -/
def sameCore (a b : Tweet) : Prop :=
  a.text = b.text ∧ a.author = b.author ∧ a.metrics = b.metrics

/-- The post-processed network data of searchTweets. -/
def searchNetData (net : NetSearchResponse) (opts : SearchOptions) : List Tweet :=
  sliceTo (opts.limit.getD 10)
    (if opts.sort.getD "popular" = "popular" then sortByLikesDesc (parsedSearchTweets net)
     else parsedSearchTweets net)

/-- The post-processed network data of getReplies. -/
def repliesNetData (net : NetSearchResponse) (limitArg : Option Int) : List Tweet :=
  sliceTo (limitArg.getD 10) (sortByLikesDesc (parsedSearchTweets net))

/-- The post-processed network data of getUserTweets. -/
def userNetData (userData : RawUser) (rawTweets : List RawTweet)
    (limitArg : Option Int) : List Tweet :=
  sliceTo (limitArg.getD 10)
    (sortByLikesDesc (rawTweets.map (fun tw => parseTweet tw userData)))

/-! ## Concrete fixtures for witnesses and counterexamples -/

def demoCfg : Config := { bearerToken := none }

def tokenCfg : Config := { bearerToken := some "token" }

def emptyState : CacheState := { memory := [], file := [], cacheLoaded := true }

def constIds : Nat → String := fun _ => "42"

def constDates : Nat → Nat := fun _ => 0

def aiOptions : SearchOptions := { query := "ai" }

def emptyNet : NetSearchResponse := ⟨none, []⟩

def expiredKeyEntry : CacheEntry := ⟨[], 0, 5⟩

def kState : CacheState := { memory := [("k", expiredKeyEntry)], file := [], cacheLoaded := true }

def hitEntry : CacheEntry := ⟨[], 0, 100⟩

def hitState : CacheState :=
  { memory := [(searchCacheKey aiOptions, hitEntry),
               (repliesCacheKey "1" 10, hitEntry),
               (userCacheKey "bob" 10, hitEntry)],
    file := [], cacheLoaded := true }

def expiredAiState : CacheState :=
  { memory := [(searchCacheKey aiOptions, expiredKeyEntry)],
    file := [(searchCacheKey aiOptions, expiredKeyEntry)], cacheLoaded := true }

def textOfTemplate (i : Nat) : String := (MOCK_TWEET_TEMPLATES.getD i emptyTemplate).text

def likesTweet (n : Nat) : Tweet :=
  { id := "1", text := "t", author := emptyUser, created_at := 0,
    metrics := ⟨n, 0, 0, 0⟩, url := "u" }

/-! ## Lemmas about the stable sort -/

theorem mem_insertByLikes {v t : Tweet} {l : List Tweet} :
    v ∈ insertByLikes t l ↔ v = t ∨ v ∈ l := by
  induction l with
  | nil => simp [insertByLikes]
  | cons u us ih =>
    by_cases h : u.metrics.likes ≤ t.metrics.likes
    · simp [insertByLikes, h]
    · simp [insertByLikes, h, ih]
      tauto

theorem insertByLikes_pairwise {t : Tweet} {l : List Tweet}
    (hl : l.Pairwise likesGE) : (insertByLikes t l).Pairwise likesGE := by
  induction l with
  | nil => simp [insertByLikes, likesGE]
  | cons u us ih =>
    rcases List.pairwise_cons.mp hl with ⟨hu, hus⟩
    by_cases h : u.metrics.likes ≤ t.metrics.likes
    · simp only [insertByLikes, if_pos h]
      refine List.pairwise_cons.mpr ⟨?_, hl⟩
      intro v hv
      rcases List.mem_cons.mp hv with rfl | hv2
      · exact h
      · exact le_trans (hu v hv2) h
    · simp only [insertByLikes, if_neg h]
      refine List.pairwise_cons.mpr ⟨?_, ih hus⟩
      intro v hv
      rcases mem_insertByLikes.mp hv with rfl | hv2
      · exact le_of_not_le h
      · exact hu v hv2

theorem sortByLikesDesc_pairwise (l : List Tweet) :
    (sortByLikesDesc l).Pairwise likesGE := by
  induction l with
  | nil => simp [sortByLikesDesc]
  | cons t ts ih => exact insertByLikes_pairwise ih

theorem insertByLikes_perm (t : Tweet) (l : List Tweet) :
    List.Perm (insertByLikes t l) (t :: l) := by
  induction l with
  | nil => rfl
  | cons u us ih =>
    by_cases h : u.metrics.likes ≤ t.metrics.likes
    · simp [insertByLikes, h]
    · simp only [insertByLikes, if_neg h]
      exact (ih.cons u).trans (List.Perm.swap t u us)

theorem sortByLikesDesc_perm (l : List Tweet) : List.Perm (sortByLikesDesc l) l := by
  induction l with
  | nil => rfl
  | cons t ts ih => exact (insertByLikes_perm t (sortByLikesDesc ts)).trans (ih.cons t)

theorem sortByLikesDesc_length (l : List Tweet) :
    (sortByLikesDesc l).length = l.length :=
  (sortByLikesDesc_perm l).length_eq

theorem insertByLikes_filter_ne {t : Tweet} {n : Nat} (l : List Tweet)
    (h : t.metrics.likes ≠ n) :
    (insertByLikes t l).filter (fun v => v.metrics.likes == n) =
      l.filter (fun v => v.metrics.likes == n) := by
  induction l with
  | nil => simp [insertByLikes, h]
  | cons u us ih =>
    by_cases hu : u.metrics.likes ≤ t.metrics.likes
    · simp [insertByLikes, hu, List.filter, h]
    · simp only [insertByLikes, if_neg hu]
      simp [List.filter_cons, ih]

theorem insertByLikes_filter_eq {t : Tweet} {n : Nat} (l : List Tweet)
    (h : t.metrics.likes = n) :
    (insertByLikes t l).filter (fun v => v.metrics.likes == n) =
      t :: l.filter (fun v => v.metrics.likes == n) := by
  induction l with
  | nil => simp [insertByLikes, h]
  | cons u us ih =>
    by_cases hu : u.metrics.likes ≤ t.metrics.likes
    · simp only [insertByLikes, if_pos hu]
      simp [List.filter_cons, h]
    · have hne : u.metrics.likes ≠ n := by
        intro he
        exact hu (by rw [h, ← he])
      simp only [insertByLikes, if_neg hu]
      simp [List.filter_cons, hne, ih]

/-- Stability of the popular sort: each equal-likes class keeps its source order. -/
theorem sortByLikesDesc_filter (l : List Tweet) (n : Nat) :
    (sortByLikesDesc l).filter (fun v => v.metrics.likes == n) =
      l.filter (fun v => v.metrics.likes == n) := by
  induction l with
  | nil => rfl
  | cons t ts ih =>
    by_cases h : t.metrics.likes = n
    · rw [sortByLikesDesc, insertByLikes_filter_eq _ h, ih]
      simp [List.filter_cons, h]
    · rw [sortByLikesDesc, insertByLikes_filter_ne _ h, ih]
      simp [List.filter_cons, h]

theorem filter_take_prefix {α : Type} (p : α → Bool) :
    ∀ (l : List α) (n : Nat), ∃ k, (l.take n).filter p = (l.filter p).take k := by
  intro l
  induction l with
  | nil => intro n; exact ⟨0, by simp⟩
  | cons a as ih =>
    intro n
    cases n with
    | zero => exact ⟨0, by simp⟩
    | succ m =>
      rcases ih m with ⟨k, hk⟩
      by_cases hp : p a
      · exact ⟨k + 1, by simp [List.take, List.filter_cons, hp, hk]⟩
      · exact ⟨k, by simp [List.take, List.filter_cons, hp, hk]⟩

theorem pairwise_take {α : Type} {R : α → α → Prop} {l : List α} (n : Nat)
    (h : l.Pairwise R) : (l.take n).Pairwise R :=
  h.sublist (List.take_sublist n l)

/-! ## Lemmas about the cache layer -/

theorem loadDisk_cacheLoaded (st : CacheState) : (loadDisk st).cacheLoaded = true := by
  unfold loadDisk
  split
  · assumption
  · rfl

theorem loadDisk_of_loaded (st : CacheState) (h : st.cacheLoaded = true) :
    loadDisk st = st := by
  simp [loadDisk, h]

theorem loadDisk_file (st : CacheState) : (loadDisk st).file = st.file := by
  unfold loadDisk
  split
  · rfl
  · rfl

theorem storeLookup_insert (s : Store) (key : String) (e : CacheEntry) :
    storeLookup (storeInsert s key e) key = some e := by
  induction s with
  | nil => simp [storeInsert, storeLookup]
  | cons p rest ih =>
    by_cases h : p.1 = key
    · simp [storeInsert, storeLookup, h]
    · simp [storeInsert, storeLookup, h, ih]

theorem storeLookup_erase (s : Store) (key : String) :
    storeLookup (storeErase s key) key = none := by
  induction s with
  | nil => simp [storeErase, storeLookup]
  | cons p rest ih =>
    by_cases h : p.1 = key
    · simp [storeErase, storeLookup, h, ih]
    · simp [storeErase, storeLookup, h, ih]

/-- getCacheM written out by cases, for rewriting. -/
theorem getCacheM_eq (cfg : Config) (now : Nat) (key : String) (st : CacheState) :
    getCacheM cfg now key st =
      if isCacheEnabled cfg then
        match storeLookup (loadDisk st).memory key with
        | none => (none, loadDisk st)
        | some e =>
          if now - e.timestamp > e.ttl then
            (none, { loadDisk st with memory := storeErase (loadDisk st).memory key })
          else (some e.data, loadDisk st)
      else (none, st) := rfl

theorem setCacheM_eq (cfg : Config) (now : Nat) (key : String) (data : List Tweet)
    (st : CacheState) :
    setCacheM cfg now key data none st =
      if isCacheEnabled cfg then
        { memory := storeInsert (loadDisk st).memory key ⟨data, now, getCacheTtl cfg⟩,
          file := storeInsert (loadDisk st).memory key ⟨data, now, getCacheTtl cfg⟩,
          cacheLoaded := (loadDisk st).cacheLoaded }
      else st := rfl

theorem getCacheM_file (cfg : Config) (now : Nat) (key : String) (st : CacheState) :
    ((getCacheM cfg now key st).2).file = st.file := by
  rw [getCacheM_eq]
  by_cases he : isCacheEnabled cfg
  · simp only [he, if_true]
    cases hl : storeLookup (loadDisk st).memory key with
    | none => simp [loadDisk_file]
    | some e =>
      by_cases hx : now - e.timestamp > e.ttl
      · simp [hx, loadDisk_file]
      · simp [hx, loadDisk_file]
  · simp [he]

/-- Reading right after a write (with no expiry in between) yields the written
payload and leaves the state alone. -/
theorem getCacheM_after_setCacheM (cfg : Config) (now now2 : Nat) (key : String)
    (data : List Tweet) (st : CacheState) (he : isCacheEnabled cfg = true)
    (hfresh : ¬ now2 - now > getCacheTtl cfg) :
    getCacheM cfg now2 key (setCacheM cfg now key data none st) =
      (some data, setCacheM cfg now key data none st) := by
  rw [setCacheM_eq, getCacheM_eq]
  simp only [he, if_true]
  rw [loadDisk_of_loaded _ (by simp [loadDisk_cacheLoaded])]
  simp [storeLookup_insert, hfresh]

/-- A cache hit leaves a state on which the same read hits again identically. -/
theorem getCacheM_hit_idem (cfg : Config) (now : Nat) (key : String)
    (st st2 : CacheState) (d : List Tweet)
    (h : getCacheM cfg now key st = (some d, st2)) :
    getCacheM cfg now key st2 = (some d, st2) := by
  rw [getCacheM_eq] at h
  by_cases he : isCacheEnabled cfg
  · simp only [he, if_true] at h
    cases hl : storeLookup (loadDisk st).memory key with
    | none => rw [hl] at h; exact absurd (congrArg Prod.fst h) (by simp)
    | some e =>
      rw [hl] at h
      dsimp only at h
      by_cases hx : now - e.timestamp > e.ttl
      · rw [if_pos hx] at h
        exact absurd (congrArg Prod.fst h) (by simp)
      · rw [if_neg hx] at h
        have hst2 : st2 = loadDisk st := ((Prod.mk.injEq _ _ _ _ ▸ h).2).symm
        have hd : d = e.data := by
          have h1 := (Prod.mk.injEq _ _ _ _ ▸ h).1
          exact (Option.some.injEq _ _ ▸ h1).symm
        rw [getCacheM_eq]
        simp only [he, if_true]
        rw [hst2, loadDisk_of_loaded _ (loadDisk_cacheLoaded st), hl]
        dsimp only
        rw [if_neg hx, hd]
  · rw [if_neg he] at h
    exact absurd (congrArg Prod.fst h) (by simp)

/-! ## Lemmas about template selection in the mock synthesizer -/

theorem pickFree_lt (used : List Nat) :
    ∀ (fuel j : Nat), j < 9 → pickFree used 9 fuel j < 9 := by
  intro fuel
  induction fuel with
  | zero => intro j hj; exact hj
  | succ f ih =>
    intro j hj
    unfold pickFree
    split
    · exact ih _ (Nat.mod_lt _ (by omega))
    · exact hj

theorem pickFree_free (used : List Nat) (hlen : used.length < 9) :
    ∀ (fuel j : Nat), j < 9 → (∃ k, k < fuel ∧ (j + k) % 9 ∉ used) →
      pickFree used 9 fuel j ∉ used := by
  intro fuel
  induction fuel with
  | zero =>
    intro j hj hk
    rcases hk with ⟨k, hk0, _⟩
    omega
  | succ f ih =>
    intro j hj hk
    unfold pickFree
    by_cases hj9 : j ∈ used
    · rw [if_pos ⟨hj9, hlen⟩]
      rcases hk with ⟨k, hkf, hkfree⟩
      have hk0 : k ≠ 0 := by
        intro h0
        rw [h0] at hkfree
        simp [Nat.mod_eq_of_lt hj] at hkfree
        exact hkfree hj9
      refine ih _ (Nat.mod_lt _ (by omega)) ⟨k - 1, by omega, ?_⟩
      have : ((j + 1) % 9 + (k - 1)) % 9 = (j + k) % 9 := by omega
      rw [this]
      exact hkfree
    · rw [if_neg (by tauto)]
      exact hj9

theorem exists_free_slot (used : List Nat) (hnd : used.Nodup)
    (hbound : ∀ x ∈ used, x < 9) (hlen : used.length < 9) (j : Nat) (hj : j < 9) :
    ∃ k, k < 9 ∧ (j + k) % 9 ∉ used := by
  have hfree : ∃ r, r < 9 ∧ r ∉ used := by
    by_contra hcon
    push_neg at hcon
    have hsub : List.range 9 ⊆ used := by
      intro r hr
      exact hcon r (List.mem_range.mp hr)
    have := ((List.nodup_range 9).subperm hsub).length_le
    simp at this
    omega
  rcases hfree with ⟨r, hr9, hrfree⟩
  refine ⟨(r + 9 - j) % 9, Nat.mod_lt _ (by omega), ?_⟩
  have : (j + (r + 9 - j) % 9) % 9 = r := by omega
  rw [this]
  exact hrfree

/-- Invariant of the generateMockTweets selection loop: template indices stay
below 9, avoid the carried used set, and never repeat. -/
theorem genSelAux_invariant (seed : Nat) :
    ∀ (n i : Nat) (used : List Nat), used.Nodup → (∀ x ∈ used, x < 9) →
      used.length + n ≤ 9 →
      ((genSelAux seed n i used).map (fun s => s.2.1)).Nodup ∧
      (∀ x ∈ (genSelAux seed n i used).map (fun s => s.2.1), x < 9 ∧ x ∉ used) := by
  intro n
  induction n with
  | zero => intro i used _ _ _; simp [genSelAux]
  | succ m ih =>
    intro i used hnd hbound hlen
    have hstart : (seed + i * 7) % 9 < 9 := Nat.mod_lt _ (by omega)
    have hlen9 : used.length < 9 := by omega
    set tIdx := pickFree used 9 9 ((seed + i * 7) % 9) with htIdx
    have htlt : tIdx < 9 := pickFree_lt used 9 _ hstart
    have htfree : tIdx ∉ used :=
      pickFree_free used hlen9 9 _ hstart (exists_free_slot used hnd hbound hlen9 _ hstart)
    have hnd2 : (tIdx :: used).Nodup := by
      simp [List.nodup_cons, htfree, hnd]
    have hbound2 : ∀ x ∈ tIdx :: used, x < 9 := by
      intro x hx
      rcases List.mem_cons.mp hx with rfl | hx2
      · exact htlt
      · exact hbound x hx2
    have hlen2 : (tIdx :: used).length + m ≤ 9 := by
      simp [List.length_cons]
      omega
    rcases ih (i + 1) (tIdx :: used) hnd2 hbound2 hlen2 with ⟨ihnd, ihmem⟩
    constructor
    · rw [genSelAux]
      simp only [List.map_cons, List.nodup_cons]
      refine ⟨?_, ihnd⟩
      intro hmem
      exact ((ihmem tIdx hmem).2) (List.mem_cons_self _ _)
    · rw [genSelAux]
      simp only [List.map_cons]
      intro x hx
      rcases List.mem_cons.mp hx with rfl | hx2
      · exact ⟨htlt, htfree⟩
      · have := ihmem x hx2
        exact ⟨this.1, fun hc => this.2 (List.mem_cons_of_mem _ hc)⟩

theorem genSelections_nodup_tIdx (seed n : Nat) (hn : n ≤ 9) :
    ((genSelections seed n).map (fun s => s.2.1)).Nodup :=
  (genSelAux_invariant seed n 0 [] (by simp) (by simp) (by simpa)).1

theorem genSelections_tIdx_lt (seed n : Nat) (hn : n ≤ 9) :
    ∀ x ∈ (genSelections seed n).map (fun s => s.2.1), x < 9 :=
  fun x hx => ((genSelAux_invariant seed n 0 [] (by simp) (by simp) (by simpa)).2 x hx).1

theorem genSelAux_length (seed : Nat) :
    ∀ (n i : Nat) (used : List Nat), (genSelAux seed n i used).length = n := by
  intro n
  induction n with
  | zero => intro i used; rfl
  | succ m ih => intro i used; simp [genSelAux, ih]

/-! ## Randomness-independence machinery for the mock synthesizer -/

theorem insertByLikes_forall2 {t1 t2 : Tweet} {l1 l2 : List Tweet}
    (ht : sameCore t1 t2) (hl : List.Forall₂ sameCore l1 l2) :
    List.Forall₂ sameCore (insertByLikes t1 l1) (insertByLikes t2 l2) := by
  induction hl with
  | nil => exact List.Forall₂.cons ht List.Forall₂.nil
  | @cons u1 u2 us1 us2 hu hus ih =>
    have hcond : (u1.metrics.likes ≤ t1.metrics.likes) ↔ (u2.metrics.likes ≤ t2.metrics.likes) := by
      rw [hu.2.2, ht.2.2]
    by_cases hc : u1.metrics.likes ≤ t1.metrics.likes
    · simp only [insertByLikes, if_pos hc, if_pos (hcond.mp hc)]
      exact List.Forall₂.cons ht (List.Forall₂.cons hu hus)
    · simp only [insertByLikes, if_neg hc, if_neg (fun h => hc (hcond.mpr h))]
      exact List.Forall₂.cons hu ih

theorem sortByLikesDesc_forall2 {l1 l2 : List Tweet}
    (h : List.Forall₂ sameCore l1 l2) :
    List.Forall₂ sameCore (sortByLikesDesc l1) (sortByLikesDesc l2) := by
  induction h with
  | nil => exact List.Forall₂.nil
  | cons ht hts ih => exact insertByLikes_forall2 ht ih

theorem forall2_maps {l1 l2 : List Tweet} (h : List.Forall₂ sameCore l1 l2) :
    l1.map (fun t => t.text) = l2.map (fun t => t.text) ∧
    l1.map (fun t => t.author.username) = l2.map (fun t => t.author.username) := by
  induction h with
  | nil => simp
  | cons ht hts ih =>
    refine ⟨?_, ?_⟩
    · simp [ht.1, ih.1]
    · simp [ht.2.1, ih.2]

theorem buildMockTweet_forall2 (ids1 ids2 : Nat → String) (dates1 dates2 : Nat → Nat)
    (sels : List (Nat × Nat × Nat)) :
    List.Forall₂ sameCore (sels.map (buildMockTweet ids1 dates1))
      (sels.map (buildMockTweet ids2 dates2)) := by
  induction sels with
  | nil => exact List.Forall₂.nil
  | cons s ss ih => exact List.Forall₂.cons ⟨rfl, rfl, rfl⟩ ih

/-! ## CSV round-trip lemmas -/

theorem collapseQuotes_cons_ne {c : Char} (h : c ≠ '"') (l : List Char) :
    collapseQuotes (c :: l) = c :: collapseQuotes l := by
  cases l with
  | nil => rfl
  | cons d ds => simp [collapseQuotes, h]

theorem collapseQuotes_doubleQuotes (s : List Char) :
    collapseQuotes (doubleQuotes s) = s := by
  induction s with
  | nil => rfl
  | cons c rest ih =>
    by_cases h : c = '"'
    · subst h
      simp [doubleQuotes, collapseQuotes, ih]
    · simp only [doubleQuotes, if_neg h]
      rw [collapseQuotes_cons_ne h, ih]

theorem csvParseField_escapeCSV (s : List Char) :
    csvParseField (escapeCSV s) = s := by
  by_cases h : hasCsvSpecial s
  · simp only [escapeCSV, if_pos h]
    have hform : '"' :: (doubleQuotes s ++ ['"']) = ('"' :: doubleQuotes s) ++ ['"'] := by
      simp
    rw [csvParseField, if_pos]
    · simp only [List.drop_succ_cons, List.drop_zero]
      rw [List.dropLast_concat, collapseQuotes_doubleQuotes]
    · refine ⟨by simp, by simp, ?_⟩
      rw [hform, List.getLast?_concat]
  · simp only [escapeCSV, if_neg h]
    have hq : ('"' : Char) ∉ s := by
      intro hmem
      apply h
      simp only [hasCsvSpecial, Bool.or_eq_true]
      left
      right
      simpa using hmem
    cases s with
    | nil => rfl
    | cons c rest =>
      have hcq : c ≠ '"' := by
        intro hcc
        subst hcc
        exact hq (List.mem_cons_self _ _)
      rw [csvParseField, if_neg]
      intro hcond
      have := hcond.2.1
      simp at this
      exact hcq this

/-- The text field of formatCsv and its parse, end to end: the emitted field
always parses back to the newline-replaced text. -/
theorem csvTextField_roundtrip (text : List Char) :
    csvParseField (csvTextField text) = replaceNewlines text :=
  csvParseField_escapeCSV (replaceNewlines text)

/-! ## Path lemmas for the orchestrator -/

theorem rehydrateTweets_id (l : List Tweet) : rehydrateTweets l = l := by
  induction l with
  | nil => rfl
  | cons t ts ih =>
    show ({ t with created_at := t.created_at } : Tweet) :: rehydrateTweets ts = t :: ts
    rw [ih]

theorem searchTweetsM_hit (cfg : Config) (now : Nat) (net : NetSearchResponse)
    (ids : Nat → String) (dates : Nat → Nat) (opts : SearchOptions)
    (st st2 : CacheState) (d : List Tweet)
    (h : getCacheM cfg now (searchCacheKey opts) st = (some d, st2)) :
    searchTweetsM cfg now net ids dates opts st =
      ({ data := rehydrateTweets d, fromCache := true }, st2) := by
  unfold searchTweetsM
  dsimp only
  rw [h]

theorem searchTweetsM_demo (cfg : Config) (now : Nat) (net : NetSearchResponse)
    (ids : Nat → String) (dates : Nat → Nat) (opts : SearchOptions)
    (st st2 : CacheState)
    (hMiss : getCacheM cfg now (searchCacheKey opts) st = (none, st2))
    (hDemo : isDemoMode cfg = true) :
    searchTweetsM cfg now net ids dates opts st =
      ({ data := generateMockTweets opts.query (opts.limit.getD 10) (demoHours opts.time) ids dates,
         fromCache := false }, st2) := by
  unfold searchTweetsM
  dsimp only
  rw [hMiss]
  dsimp only
  rw [hDemo]
  simp

theorem searchTweetsM_net (cfg : Config) (now : Nat) (net : NetSearchResponse)
    (ids : Nat → String) (dates : Nat → Nat) (opts : SearchOptions)
    (st st2 : CacheState) (raws : List RawTweet)
    (hMiss : getCacheM cfg now (searchCacheKey opts) st = (none, st2))
    (hDemo : isDemoMode cfg = false) (hData : net.data = some raws) :
    searchTweetsM cfg now net ids dates opts st =
      ({ data := searchNetData net opts, fromCache := false },
       setCacheM cfg now (searchCacheKey opts) (searchNetData net opts) none st2) := by
  unfold searchTweetsM
  dsimp only
  rw [hMiss]
  dsimp only
  rw [hDemo, hData]
  simp [searchNetData]

theorem getRepliesM_hit (cfg : Config) (now : Nat) (net : NetSearchResponse)
    (ids : Nat → String) (dates : Nat → Nat) (tweetId : String) (limitArg : Option Int)
    (st st2 : CacheState) (d : List Tweet)
    (h : getCacheM cfg now (repliesCacheKey tweetId (limitArg.getD 10)) st = (some d, st2)) :
    getRepliesM cfg now net ids dates tweetId limitArg st =
      ({ data := rehydrateTweets d, fromCache := true }, st2) := by
  unfold getRepliesM
  dsimp only
  rw [h]

theorem getRepliesM_demo (cfg : Config) (now : Nat) (net : NetSearchResponse)
    (ids : Nat → String) (dates : Nat → Nat) (tweetId : String) (limitArg : Option Int)
    (st st2 : CacheState)
    (hMiss : getCacheM cfg now (repliesCacheKey tweetId (limitArg.getD 10)) st = (none, st2))
    (hDemo : isDemoMode cfg = true) :
    getRepliesM cfg now net ids dates tweetId limitArg st =
      ({ data := generateMockReplies tweetId (limitArg.getD 10) ids dates,
         fromCache := false }, st2) := by
  unfold getRepliesM
  dsimp only
  rw [hMiss]
  dsimp only
  rw [hDemo]
  simp

theorem getRepliesM_net (cfg : Config) (now : Nat) (net : NetSearchResponse)
    (ids : Nat → String) (dates : Nat → Nat) (tweetId : String) (limitArg : Option Int)
    (st st2 : CacheState) (raws : List RawTweet)
    (hMiss : getCacheM cfg now (repliesCacheKey tweetId (limitArg.getD 10)) st = (none, st2))
    (hDemo : isDemoMode cfg = false) (hData : net.data = some raws) :
    getRepliesM cfg now net ids dates tweetId limitArg st =
      ({ data := repliesNetData net limitArg, fromCache := false },
       setCacheM cfg now (repliesCacheKey tweetId (limitArg.getD 10))
         (repliesNetData net limitArg) none st2) := by
  unfold getRepliesM
  dsimp only
  rw [hMiss]
  dsimp only
  rw [hDemo, hData]
  simp [repliesNetData]

theorem getUserTweetsM_hit (cfg : Config) (now : Nat) (netUser : Option RawUser)
    (netTweets : Option (List RawTweet)) (ids : Nat → String) (dates : Nat → Nat)
    (username : String) (limitArg : Option Int) (st st2 : CacheState) (d : List Tweet)
    (h : getCacheM cfg now (userCacheKey username (limitArg.getD 10)) st = (some d, st2)) :
    getUserTweetsM cfg now netUser netTweets ids dates username limitArg st =
      some ({ data := rehydrateTweets d, fromCache := true }, st2) := by
  unfold getUserTweetsM
  dsimp only
  rw [h]

theorem getUserTweetsM_demo (cfg : Config) (now : Nat) (netUser : Option RawUser)
    (netTweets : Option (List RawTweet)) (ids : Nat → String) (dates : Nat → Nat)
    (username : String) (limitArg : Option Int) (st st2 : CacheState)
    (hMiss : getCacheM cfg now (userCacheKey username (limitArg.getD 10)) st = (none, st2))
    (hDemo : isDemoMode cfg = true) :
    getUserTweetsM cfg now netUser netTweets ids dates username limitArg st =
      some ({ data := generateMockUserTweets username (limitArg.getD 10) ids dates,
              fromCache := false }, st2) := by
  unfold getUserTweetsM
  dsimp only
  rw [hMiss]
  dsimp only
  rw [hDemo]
  simp

theorem getUserTweetsM_net (cfg : Config) (now : Nat) (userData : RawUser)
    (rawTweets : List RawTweet) (ids : Nat → String) (dates : Nat → Nat)
    (username : String) (limitArg : Option Int) (st st2 : CacheState)
    (hMiss : getCacheM cfg now (userCacheKey username (limitArg.getD 10)) st = (none, st2))
    (hDemo : isDemoMode cfg = false) :
    getUserTweetsM cfg now (some userData) (some rawTweets) ids dates username limitArg st =
      some ({ data := userNetData userData rawTweets limitArg, fromCache := false },
            setCacheM cfg now (userCacheKey username (limitArg.getD 10))
              (userNetData userData rawTweets limitArg) none st2) := by
  unfold getUserTweetsM
  dsimp only
  rw [hMiss]
  dsimp only
  rw [hDemo]
  simp [userNetData]

/-! ## Claims -/

/-- C1 (counterexample): the Search cache key is `search:` plus the JSON
serialization of the options object as passed, with no default substitution:
omitting `limit` and explicitly passing its default value 10 produce different
cache keys, refuting the claim for the Search operation. -/
theorem c1_counterexample_search_key :
    searchCacheKey { query := "ai" } ≠ searchCacheKey { query := "ai", limit := some 10 } := by
  decide

/-- C1 (amended): the Replies and UserTimeline cache keys are computed from the
default-substituted limit (TS default parameter `limit = 10`), so an invocation
omitting the limit and one passing 10 agree, on the key and on the whole call;
the Search key is serialized from the raw options and does not default-substitute. -/
theorem c1_amended_replies_user_default_keys (cfg : Config) (now : Nat)
    (net : NetSearchResponse) (netUser : Option RawUser) (netTweets : Option (List RawTweet))
    (ids : Nat → String) (dates : Nat → Nat) (tweetId username : String) (st : CacheState) :
    repliesCacheKey tweetId ((none : Option Int).getD 10) = repliesCacheKey tweetId 10 ∧
    userCacheKey username ((none : Option Int).getD 10) = userCacheKey username 10 ∧
    getRepliesM cfg now net ids dates tweetId none st =
      getRepliesM cfg now net ids dates tweetId (some 10) st ∧
    getUserTweetsM cfg now netUser netTweets ids dates username none st =
      getUserTweetsM cfg now netUser netTweets ids dates username (some 10) st :=
  ⟨rfl, rfl, rfl, rfl⟩

/-- C5: a read of an expired entry returns absent and evicts it; a later read
still returns absent; a read of a never-written key returns absent; a read with
caching disabled returns absent and leaves the state unchanged. -/
theorem c5_ttl_expiry_evicts (cfg : Config) (now now2 : Nat) (key : String)
    (st : CacheState) (e : CacheEntry)
    (hE : isCacheEnabled cfg = true)
    (hL : storeLookup (loadDisk st).memory key = some e)
    (hX : now - e.timestamp > e.ttl) :
    (getCacheM cfg now key st).1 = none ∧
    storeLookup ((getCacheM cfg now key st).2).memory key = none ∧
    (getCacheM cfg now2 key ((getCacheM cfg now key st).2)).1 = none ∧
    (∀ (cfg2 : Config) (n2 : Nat) (st2 : CacheState),
        storeLookup (loadDisk st2).memory key = none → (getCacheM cfg2 n2 key st2).1 = none) ∧
    (∀ (cfg2 : Config) (n2 : Nat) (st2 : CacheState),
        isCacheEnabled cfg2 = false → getCacheM cfg2 n2 key st2 = (none, st2)) := by
  have habsent : ∀ (cfg2 : Config) (n2 : Nat) (st2 : CacheState),
      storeLookup (loadDisk st2).memory key = none → (getCacheM cfg2 n2 key st2).1 = none := by
    intro cfg2 n2 st2 h2
    rw [getCacheM_eq]
    by_cases he2 : isCacheEnabled cfg2
    · simp [he2, h2]
    · simp [he2]
  have heq : getCacheM cfg now key st =
      (none, { loadDisk st with memory := storeErase (loadDisk st).memory key }) := by
    rw [getCacheM_eq]
    simp [hE, hL, hX]
  refine ⟨?_, ?_, ?_, habsent, ?_⟩
  · rw [heq]
  · rw [heq]
    exact storeLookup_erase _ _
  · apply habsent
    rw [heq]
    rw [loadDisk_of_loaded _ (by simp [loadDisk_cacheLoaded])]
    exact storeLookup_erase _ _
  · intro cfg2 n2 st2 hdis
    rw [getCacheM_eq]
    simp [hdis]

/-- C5 witness: concrete expired entry (age 100 against ttl 5). -/
theorem c5_witness :
    (getCacheM demoCfg 100 "k" kState).1 = none ∧
    storeLookup ((getCacheM demoCfg 100 "k" kState).2).memory "k" = none ∧
    (getCacheM demoCfg 200 "k" ((getCacheM demoCfg 100 "k" kState).2)).1 = none := by
  have h := c5_ttl_expiry_evicts demoCfg 100 200 "k" kState expiredKeyEntry rfl rfl (by decide)
  exact ⟨h.1, h.2.1, h.2.2.1⟩

/-- C9: every record built by parseTweet and every record produced by the three
mock generators carries `url = https://twitter.com/ + author.username + /status/ + id`. -/
theorem c9_url_invariant (td : RawTweet) (ud : RawUser) (q tid uname : String)
    (limit : Int) (hours : Nat) (ids : Nat → String) (dates : Nat → Nat) :
    ((parseTweet td ud).url =
      "https://twitter.com/" ++ (parseTweet td ud).author.username ++ "/status/" ++
        (parseTweet td ud).id) ∧
    (∀ t ∈ generateMockTweets q limit hours ids dates,
        t.url = "https://twitter.com/" ++ t.author.username ++ "/status/" ++ t.id) ∧
    (∀ t ∈ generateMockReplies tid limit ids dates,
        t.url = "https://twitter.com/" ++ t.author.username ++ "/status/" ++ t.id) ∧
    (∀ t ∈ generateMockUserTweets uname limit ids dates,
        t.url = "https://twitter.com/" ++ t.author.username ++ "/status/" ++ t.id) := by
  refine ⟨rfl, ?_, ?_, ?_⟩
  · intro t ht
    have ht2 := (sortByLikesDesc_perm
      ((genSelections (hashString q) (min limit 9).toNat).map (buildMockTweet ids dates))).mem_iff.mp ht
    rcases List.mem_map.mp ht2 with ⟨sel, hsel, rfl⟩
    rfl
  · intro t ht
    have ht2 := (sortByLikesDesc_perm _).mem_iff.mp ht
    rcases List.mem_map.mp ht2 with ⟨i, hi, rfl⟩
    rfl
  · intro t ht
    have ht2 := (sortByLikesDesc_perm _).mem_iff.mp ht
    rcases List.mem_map.mp ht2 with ⟨i, hi, rfl⟩
    rfl

/-- C9 witness at a concrete raw tweet/user pair. -/
theorem c9_witness :
    (parseTweet { id := "7", text := "hi", author_id := "u1", created_at := 0 }
        { id := "u1", username := "bob", name := "Bob" }).url =
      "https://twitter.com/" ++
        (parseTweet { id := "7", text := "hi", author_id := "u1", created_at := 0 }
          { id := "u1", username := "bob", name := "Bob" }).author.username ++
        "/status/" ++
        (parseTweet { id := "7", text := "hi", author_id := "u1", created_at := 0 }
          { id := "u1", username := "bob", name := "Bob" }).id :=
  (c9_url_invariant { id := "7", text := "hi", author_id := "u1", created_at := 0 }
    { id := "u1", username := "bob", name := "Bob" } "q" "1" "u" 3 168 constIds constDates).1

/-- C10: each mock generator returns exactly clamp(limit) records — limit capped
by the pool size (9 templates for search and user-timeline mocks, 8 for replies)
and floored at 0 — so an oversized limit yields pool-size records and a zero or
negative limit yields the empty list. -/
theorem c10_mock_result_counts (q tid uname : String) (limit : Int) (hours : Nat)
    (ids : Nat → String) (dates : Nat → Nat) :
    (generateMockTweets q limit hours ids dates).length = (max 0 (min limit 9)).toNat ∧
    (generateMockReplies tid limit ids dates).length = (max 0 (min limit 8)).toNat ∧
    (generateMockUserTweets uname limit ids dates).length = (max 0 (min limit 9)).toNat ∧
    MOCK_TWEET_TEMPLATES.length = 9 ∧ REPLY_TEMPLATES.length = 8 ∧
    (limit ≤ 0 →
      generateMockTweets q limit hours ids dates = [] ∧
      generateMockReplies tid limit ids dates = [] ∧
      generateMockUserTweets uname limit ids dates = []) := by
  have hmax9 : (min limit 9).toNat = (max 0 (min limit 9)).toNat := by omega
  have hmax8 : (min limit 8).toNat = (max 0 (min limit 8)).toNat := by omega
  have h1 : (generateMockTweets q limit hours ids dates).length = (min limit 9).toNat := by
    show (sortByLikesDesc _).length = _
    rw [sortByLikesDesc_length, List.length_map]
    exact genSelAux_length (hashString q) _ 0 []
  have h2 : (generateMockReplies tid limit ids dates).length = (min limit 8).toNat := by
    show (sortByLikesDesc _).length = _
    rw [sortByLikesDesc_length, List.length_map, List.length_range]
  have h3 : (generateMockUserTweets uname limit ids dates).length = (min limit 9).toNat := by
    show (sortByLikesDesc _).length = _
    rw [sortByLikesDesc_length, List.length_map, List.length_range]
  refine ⟨hmax9 ▸ h1, hmax8 ▸ h2, hmax9 ▸ h3, rfl, rfl, ?_⟩
  intro hneg
  have hz9 : (min limit 9).toNat = 0 := by omega
  have hz8 : (min limit 8).toNat = 0 := by omega
  refine ⟨?_, ?_, ?_⟩
  · exact List.length_eq_zero.mp (by rw [h1, hz9])
  · exact List.length_eq_zero.mp (by rw [h2, hz8])
  · exact List.length_eq_zero.mp (by rw [h3, hz9])

/-- C10 witness: requesting 100 search mocks yields 9, requesting -1 yields none. -/
theorem c10_witness :
    (generateMockTweets "ai" 100 168 constIds constDates).length = 9 ∧
    generateMockTweets "ai" (-1) 168 constIds constDates = [] := by
  constructor
  · exact (c10_mock_result_counts "ai" "1" "u" 100 168 constIds constDates).1
  · exact ((c10_mock_result_counts "ai" "1" "u" (-1) 168 constIds constDates).2.2.2.2.2
      (by decide)).1

/-- C3: when caching is enabled and a non-expired entry exists under the computed
key (a successful getCache read), every operation returns that payload rehydrated
and tagged fromCache = true, with a result independent of the network response
and the mock randomness streams — the strict short-circuit. -/
theorem c3_cache_hit_short_circuit (cfg : Config) (now : Nat) (net : NetSearchResponse)
    (netUser : Option RawUser) (netTweets : Option (List RawTweet))
    (ids : Nat → String) (dates : Nat → Nat) (opts : SearchOptions)
    (tweetId username : String) (limitArg : Option Int) (st : CacheState)
    (pS pR pU : List Tweet) (stS stR stU : CacheState)
    (hS : getCacheM cfg now (searchCacheKey opts) st = (some pS, stS))
    (hR : getCacheM cfg now (repliesCacheKey tweetId (limitArg.getD 10)) st = (some pR, stR))
    (hU : getCacheM cfg now (userCacheKey username (limitArg.getD 10)) st = (some pU, stU)) :
    searchTweetsM cfg now net ids dates opts st =
      ({ data := rehydrateTweets pS, fromCache := true }, stS) ∧
    getRepliesM cfg now net ids dates tweetId limitArg st =
      ({ data := rehydrateTweets pR, fromCache := true }, stR) ∧
    getUserTweetsM cfg now netUser netTweets ids dates username limitArg st =
      some ({ data := rehydrateTweets pU, fromCache := true }, stU) :=
  ⟨searchTweetsM_hit cfg now net ids dates opts st stS pS hS,
   getRepliesM_hit cfg now net ids dates tweetId limitArg st stR pR hR,
   getUserTweetsM_hit cfg now netUser netTweets ids dates username limitArg st stU pU hU⟩

/-- C3 witness: concrete fresh entries for all three operations. -/
theorem c3_witness :
    searchTweetsM demoCfg 3 emptyNet constIds constDates aiOptions hitState =
      ({ data := [], fromCache := true }, hitState) ∧
    getRepliesM demoCfg 3 emptyNet constIds constDates "1" none hitState =
      ({ data := [], fromCache := true }, hitState) ∧
    getUserTweetsM demoCfg 3 none none constIds constDates "bob" none hitState =
      some ({ data := [], fromCache := true }, hitState) := by
  have h := c3_cache_hit_short_circuit demoCfg 3 emptyNet none none constIds constDates
    aiOptions "1" "bob" none hitState [] [] [] hitState hitState hitState rfl rfl (by decide)
  exact ⟨h.1, h.2.1, h.2.2⟩

/-- C4 (counterexample): in demo mode with caching enabled and no cache hit
(only an expired entry under the computed key), the call does change the
in-memory cache store: the read evicts the expired entry, refuting "the cache
state (in-memory store and backing file) is left entirely unchanged". -/
theorem c4_counterexample_eviction :
    isDemoMode demoCfg = true ∧ isCacheEnabled demoCfg = true ∧
    (getCacheM demoCfg 100 (searchCacheKey aiOptions) expiredAiState).1 = none ∧
    (searchTweetsM demoCfg 100 emptyNet constIds constDates aiOptions expiredAiState).2.memory ≠
      expiredAiState.memory := by
  refine ⟨rfl, rfl, rfl, ?_⟩
  decide

/-- C4 (amended): in demo mode with no cache hit, every operation returns the
mock synthesizer's result tagged fromCache = false and writes nothing to the
cache: the resulting state is exactly the state left by the cache read (whose
only effect is lazy loading and eviction of an expired entry under the key),
and the backing file is unchanged. -/
theorem c4_amended_demo_frame (cfg : Config) (now : Nat) (net : NetSearchResponse)
    (netUser : Option RawUser) (netTweets : Option (List RawTweet))
    (ids : Nat → String) (dates : Nat → Nat) (opts : SearchOptions)
    (tweetId username : String) (limitArg : Option Int) (st : CacheState)
    (stS stR stU : CacheState)
    (hDemo : isDemoMode cfg = true)
    (hS : getCacheM cfg now (searchCacheKey opts) st = (none, stS))
    (hR : getCacheM cfg now (repliesCacheKey tweetId (limitArg.getD 10)) st = (none, stR))
    (hU : getCacheM cfg now (userCacheKey username (limitArg.getD 10)) st = (none, stU)) :
    (searchTweetsM cfg now net ids dates opts st =
      ({ data := generateMockTweets opts.query (opts.limit.getD 10) (demoHours opts.time) ids dates,
         fromCache := false }, stS) ∧ stS.file = st.file) ∧
    (getRepliesM cfg now net ids dates tweetId limitArg st =
      ({ data := generateMockReplies tweetId (limitArg.getD 10) ids dates,
         fromCache := false }, stR) ∧ stR.file = st.file) ∧
    (getUserTweetsM cfg now netUser netTweets ids dates username limitArg st =
      some ({ data := generateMockUserTweets username (limitArg.getD 10) ids dates,
              fromCache := false }, stU) ∧ stU.file = st.file) := by
  have hfS : stS.file = st.file := by
    have h0 := getCacheM_file cfg now (searchCacheKey opts) st
    rw [hS] at h0
    exact h0
  have hfR : stR.file = st.file := by
    have h0 := getCacheM_file cfg now (repliesCacheKey tweetId (limitArg.getD 10)) st
    rw [hR] at h0
    exact h0
  have hfU : stU.file = st.file := by
    have h0 := getCacheM_file cfg now (userCacheKey username (limitArg.getD 10)) st
    rw [hU] at h0
    exact h0
  exact ⟨⟨searchTweetsM_demo cfg now net ids dates opts st stS hS hDemo, hfS⟩,
         ⟨getRepliesM_demo cfg now net ids dates tweetId limitArg st stR hR hDemo, hfR⟩,
         ⟨getUserTweetsM_demo cfg now netUser netTweets ids dates username limitArg st stU hU hDemo, hfU⟩⟩

/-- C4 witness: demo search on an empty cache writes nothing and is not cached. -/
theorem c4_witness :
    (searchTweetsM demoCfg 0 emptyNet constIds constDates aiOptions emptyState).2.file =
      emptyState.file ∧
    (searchTweetsM demoCfg 0 emptyNet constIds constDates aiOptions emptyState).1.fromCache =
      false := by
  have h := c4_amended_demo_frame demoCfg 0 emptyNet none none constIds constDates aiOptions
    "1" "bob" none emptyState emptyState emptyState emptyState rfl rfl rfl rfl
  constructor
  · rw [h.1.1]
  · rw [h.1.1]

/-- C7: two mock-search calls with the same query and limit return the same
author-username list and the same template-text list (ids and timestamps are free
to differ), and within one call no template text repeats. -/
theorem c7_mock_determinism (q : String) (limit : Int) (hours1 hours2 : Nat)
    (ids1 ids2 : Nat → String) (dates1 dates2 : Nat → Nat) :
    (generateMockTweets q limit hours1 ids1 dates1).map (fun t => t.author.username) =
      (generateMockTweets q limit hours2 ids2 dates2).map (fun t => t.author.username) ∧
    (generateMockTweets q limit hours1 ids1 dates1).map (fun t => t.text) =
      (generateMockTweets q limit hours2 ids2 dates2).map (fun t => t.text) ∧
    ((generateMockTweets q limit hours1 ids1 dates1).map (fun t => t.text)).Nodup := by
  have hf2 := sortByLikesDesc_forall2
    (buildMockTweet_forall2 ids1 ids2 dates1 dates2
      (genSelections (hashString q) (min limit 9).toNat))
  have hmaps := forall2_maps hf2
  refine ⟨hmaps.2, hmaps.1, ?_⟩
  have hperm : List.Perm
      ((generateMockTweets q limit hours1 ids1 dates1).map (fun t => t.text))
      (((genSelections (hashString q) (min limit 9).toNat).map
          (buildMockTweet ids1 dates1)).map (fun t => t.text)) :=
    (sortByLikesDesc_perm _).map _
  rw [hperm.nodup_iff]
  rw [List.map_map]
  show ((genSelections (hashString q) (min limit 9).toNat).map
    (fun s => textOfTemplate s.2.1)).Nodup
  have hn9 : (min limit 9).toNat ≤ 9 := by omega
  have hidx := genSelections_nodup_tIdx (hashString q) (min limit 9).toNat hn9
  have hlt := genSelections_tIdx_lt (hashString q) (min limit 9).toNat hn9
  have hinj : ∀ a, a < 9 → ∀ b, b < 9 → textOfTemplate a = textOfTemplate b → a = b := by
    decide
  rw [show (fun (s : Nat × Nat × Nat) => textOfTemplate s.2.1) =
        (fun i => textOfTemplate i) ∘ (fun (s : Nat × Nat × Nat) => s.2.1) from rfl,
      ← List.map_map]
  refine List.Nodup.map_on ?_ hidx
  intro x hx y hy hxy
  exact hinj x (hlt x hx) y (hlt y hy) hxy

theorem replaceNewlines_of_not_mem : ∀ (s : List Char), ('\n' ∉ s) → replaceNewlines s = s := by
  intro s
  induction s with
  | nil => intro _; rfl
  | cons c cs ih =>
    intro h
    have hc : c ≠ '\n' := by
      intro hcc
      exact h (hcc ▸ List.mem_cons_self c cs)
    have htail : ('\n' : Char) ∉ cs := fun hm => h (List.mem_cons_of_mem _ hm)
    show (if c = '\n' then ' ' else c) :: replaceNewlines cs = c :: cs
    rw [if_neg hc, ih htail]

/-- C8 (counterexample): a text with a newline does not round-trip: the
formatter replaces newlines with spaces before escaping, so the emitted field
parses back to the space-substituted text, not the original. -/
theorem c8_counterexample_newline :
    csvParseField (csvTextField ['a', '\n', 'b']) = ['a', ' ', 'b'] ∧
    csvParseField (csvTextField ['a', '\n', 'b']) ≠ ['a', '\n', 'b'] := by
  constructor
  · rfl
  · decide

/-- C8 (amended): the CSV text field always parses back (standard CSV quoting,
doubled quotes as escapes) to the newline-replaced text; in particular a text
containing a comma or a double-quote but no newline round-trips exactly. -/
theorem c8_amended_csv_text_roundtrip (text : List Char)
    (hspecial : hasCsvSpecial text = true) :
    csvParseField (csvTextField text) = replaceNewlines text ∧
    (('\n' ∉ text) → csvParseField (csvTextField text) = text) := by
  refine ⟨csvTextField_roundtrip text, ?_⟩
  intro hnl
  rw [csvTextField_roundtrip text, replaceNewlines_of_not_mem text hnl]

/-- C8 witness: a text containing a comma and a double-quote round-trips exactly. -/
theorem c8_witness :
    csvParseField (csvTextField ['a', ',', '"', 'b']) = ['a', ',', '"', 'b'] :=
  (c8_amended_csv_text_roundtrip ['a', ',', '"', 'b'] (by decide)).2 (by decide)

/-- C2 (counterexample): in demo mode (caching enabled, no credential), mock
results are not written to the cache, so the second of two immediate identical
searches still reports fromCache = false, refuting the claim as stated. -/
theorem c2_counterexample_demo_not_cached :
    isCacheEnabled demoCfg = true ∧ isDemoMode demoCfg = true ∧
    (searchTweetsM demoCfg 0 emptyNet constIds constDates aiOptions
      (searchTweetsM demoCfg 0 emptyNet constIds constDates aiOptions emptyState).2).1.fromCache
      = false := by
  refine ⟨rfl, rfl, ?_⟩
  have h1 := searchTweetsM_demo demoCfg 0 emptyNet constIds constDates aiOptions
    emptyState emptyState rfl rfl
  rw [h1]
  have h2 := searchTweetsM_demo demoCfg 0 emptyNet constIds constDates aiOptions
    emptyState emptyState rfl rfl
  rw [h2]

/-- C2 (amended): with caching enabled, a credential configured, and the first
call's response carrying data (for user-timeline: the username resolving and the
timeline response carrying data), running the same operation twice at the same
instant yields fromCache = true on the second call with a payload equal to the
first call's payload. -/
theorem c2_amended_repeat_from_cache (cfg : Config) (now : Nat)
    (net1 net2 : NetSearchResponse) (ids1 ids2 : Nat → String) (dates1 dates2 : Nat → Nat)
    (opts : SearchOptions) (tweetId username : String) (limitArg : Option Int)
    (userData : RawUser) (rawTweets : List RawTweet)
    (netUser2 : Option RawUser) (netTweets2 : Option (List RawTweet))
    (raws1 : List RawTweet) (st : CacheState)
    (hE : isCacheEnabled cfg = true) (hD : isDemoMode cfg = false)
    (hData : net1.data = some raws1) :
    ((searchTweetsM cfg now net2 ids2 dates2 opts
        (searchTweetsM cfg now net1 ids1 dates1 opts st).2).1.fromCache = true ∧
     (searchTweetsM cfg now net2 ids2 dates2 opts
        (searchTweetsM cfg now net1 ids1 dates1 opts st).2).1.data =
       (searchTweetsM cfg now net1 ids1 dates1 opts st).1.data) ∧
    ((getRepliesM cfg now net2 ids2 dates2 tweetId limitArg
        (getRepliesM cfg now net1 ids1 dates1 tweetId limitArg st).2).1.fromCache = true ∧
     (getRepliesM cfg now net2 ids2 dates2 tweetId limitArg
        (getRepliesM cfg now net1 ids1 dates1 tweetId limitArg st).2).1.data =
       (getRepliesM cfg now net1 ids1 dates1 tweetId limitArg st).1.data) ∧
    (∃ r1 st1 r2 st2,
      getUserTweetsM cfg now (some userData) (some rawTweets) ids1 dates1 username limitArg st
        = some (r1, st1) ∧
      getUserTweetsM cfg now netUser2 netTweets2 ids2 dates2 username limitArg st1
        = some (r2, st2) ∧
      r2.fromCache = true ∧ r2.data = r1.data) := by
  have hfresh : ¬ now - now > getCacheTtl cfg := by omega
  have hSearch : (searchTweetsM cfg now net2 ids2 dates2 opts
        (searchTweetsM cfg now net1 ids1 dates1 opts st).2).1.fromCache = true ∧
      (searchTweetsM cfg now net2 ids2 dates2 opts
        (searchTweetsM cfg now net1 ids1 dates1 opts st).2).1.data =
        (searchTweetsM cfg now net1 ids1 dates1 opts st).1.data := by
    rcases hg : getCacheM cfg now (searchCacheKey opts) st with ⟨o, stg⟩
    cases o with
    | some d =>
      have h1 := searchTweetsM_hit cfg now net1 ids1 dates1 opts st stg d hg
      have hg2 := getCacheM_hit_idem cfg now _ st stg d hg
      have h2 := searchTweetsM_hit cfg now net2 ids2 dates2 opts stg stg d hg2
      rw [h1, h2]
      exact ⟨rfl, rfl⟩
    | none =>
      have h1 := searchTweetsM_net cfg now net1 ids1 dates1 opts st stg raws1 hg hD hData
      have hgset := getCacheM_after_setCacheM cfg now now (searchCacheKey opts)
        (searchNetData net1 opts) stg hE hfresh
      have h2 := searchTweetsM_hit cfg now net2 ids2 dates2 opts _ _ _ hgset
      rw [h1, h2]
      exact ⟨rfl, by simp [rehydrateTweets_id]⟩
  have hReplies : (getRepliesM cfg now net2 ids2 dates2 tweetId limitArg
        (getRepliesM cfg now net1 ids1 dates1 tweetId limitArg st).2).1.fromCache = true ∧
      (getRepliesM cfg now net2 ids2 dates2 tweetId limitArg
        (getRepliesM cfg now net1 ids1 dates1 tweetId limitArg st).2).1.data =
        (getRepliesM cfg now net1 ids1 dates1 tweetId limitArg st).1.data := by
    rcases hg : getCacheM cfg now (repliesCacheKey tweetId (limitArg.getD 10)) st with ⟨o, stg⟩
    cases o with
    | some d =>
      have h1 := getRepliesM_hit cfg now net1 ids1 dates1 tweetId limitArg st stg d hg
      have hg2 := getCacheM_hit_idem cfg now _ st stg d hg
      have h2 := getRepliesM_hit cfg now net2 ids2 dates2 tweetId limitArg stg stg d hg2
      rw [h1, h2]
      exact ⟨rfl, rfl⟩
    | none =>
      have h1 := getRepliesM_net cfg now net1 ids1 dates1 tweetId limitArg st stg raws1 hg hD hData
      have hgset := getCacheM_after_setCacheM cfg now now (repliesCacheKey tweetId (limitArg.getD 10))
        (repliesNetData net1 limitArg) stg hE hfresh
      have h2 := getRepliesM_hit cfg now net2 ids2 dates2 tweetId limitArg _ _ _ hgset
      rw [h1, h2]
      exact ⟨rfl, by simp [rehydrateTweets_id]⟩
  have hUser : ∃ r1 st1 r2 st2,
      getUserTweetsM cfg now (some userData) (some rawTweets) ids1 dates1 username limitArg st
        = some (r1, st1) ∧
      getUserTweetsM cfg now netUser2 netTweets2 ids2 dates2 username limitArg st1
        = some (r2, st2) ∧
      r2.fromCache = true ∧ r2.data = r1.data := by
    rcases hg : getCacheM cfg now (userCacheKey username (limitArg.getD 10)) st with ⟨o, stg⟩
    cases o with
    | some d =>
      have h1 := getUserTweetsM_hit cfg now (some userData) (some rawTweets) ids1 dates1
        username limitArg st stg d hg
      have hg2 := getCacheM_hit_idem cfg now _ st stg d hg
      have h2 := getUserTweetsM_hit cfg now netUser2 netTweets2 ids2 dates2
        username limitArg stg stg d hg2
      exact ⟨_, _, _, _, h1, h2, rfl, rfl⟩
    | none =>
      have h1 := getUserTweetsM_net cfg now userData rawTweets ids1 dates1 username limitArg
        st stg hg hD
      have hgset := getCacheM_after_setCacheM cfg now now (userCacheKey username (limitArg.getD 10))
        (userNetData userData rawTweets limitArg) stg hE hfresh
      have h2 := getUserTweetsM_hit cfg now netUser2 netTweets2 ids2 dates2
        username limitArg _ _ _ hgset
      exact ⟨_, _, _, _, h1, h2, rfl, by simp [rehydrateTweets_id]⟩
  exact ⟨hSearch, hReplies, hUser⟩

/-- C2 witness: with a token configured and a data-bearing response, the second
identical search is served from cache. -/
theorem c2_witness :
    (searchTweetsM tokenCfg 5 ⟨some [], []⟩ constIds constDates aiOptions
      (searchTweetsM tokenCfg 5 ⟨some [], []⟩ constIds constDates aiOptions emptyState).2).1.fromCache
      = true :=
  (c2_amended_repeat_from_cache tokenCfg 5 ⟨some [], []⟩ ⟨some [], []⟩ constIds constIds
    constDates constDates aiOptions "1" "bob" none ⟨"u1", "bob", "Bob", none, none⟩ [] none none
    [] emptyState rfl rfl rfl).1.1

/-- C6: the popular sort is non-increasing on likes and stable (each equal-likes
class keeps its source order, and a truncated result is a prefix of each class);
the three mock generators return sorted lists; and on the real path with sort
"popular" the returned data is the truncated stable sort of the parsed tweets. -/
theorem c6_popular_sort_stable (l : List Tweet) (n : Nat) (lim : Int)
    (q tid uname : String) (mlim : Int) (hours : Nat)
    (ids : Nat → String) (dates : Nat → Nat) :
    (sortByLikesDesc l).Pairwise likesGE ∧
    (sortByLikesDesc l).filter (fun v => v.metrics.likes == n) =
      l.filter (fun v => v.metrics.likes == n) ∧
    (sliceTo lim (sortByLikesDesc l)).Pairwise likesGE ∧
    (∃ k, (sliceTo lim (sortByLikesDesc l)).filter (fun v => v.metrics.likes == n) =
            (l.filter (fun v => v.metrics.likes == n)).take k) ∧
    (generateMockTweets q mlim hours ids dates).Pairwise likesGE ∧
    (generateMockReplies tid mlim ids dates).Pairwise likesGE ∧
    (generateMockUserTweets uname mlim ids dates).Pairwise likesGE ∧
    (∀ (cfg : Config) (now : Nat) (net : NetSearchResponse) (ids2 : Nat → String)
        (dates2 : Nat → Nat) (opts : SearchOptions) (st st2 : CacheState)
        (raws : List RawTweet),
      getCacheM cfg now (searchCacheKey opts) st = (none, st2) →
      isDemoMode cfg = false → net.data = some raws →
      opts.sort.getD "popular" = "popular" →
      (searchTweetsM cfg now net ids2 dates2 opts st).1.data =
        sliceTo (opts.limit.getD 10) (sortByLikesDesc (parsedSearchTweets net))) := by
  have hslice_pw : ∀ (m : Int) (ls : List Tweet), ls.Pairwise likesGE →
      (sliceTo m ls).Pairwise likesGE := by
    intro m ls h
    unfold sliceTo
    split
    · exact pairwise_take _ h
    · exact pairwise_take _ h
  refine ⟨sortByLikesDesc_pairwise l, sortByLikesDesc_filter l n,
    hslice_pw _ _ (sortByLikesDesc_pairwise l), ?_, ?_, ?_, ?_, ?_⟩
  · unfold sliceTo
    split
    · rcases filter_take_prefix (fun v => v.metrics.likes == n) (sortByLikesDesc l) _ with ⟨k, hk⟩
      exact ⟨k, by rw [hk, sortByLikesDesc_filter]⟩
    · rcases filter_take_prefix (fun v => v.metrics.likes == n) (sortByLikesDesc l) _ with ⟨k, hk⟩
      exact ⟨k, by rw [hk, sortByLikesDesc_filter]⟩
  · exact sortByLikesDesc_pairwise _
  · exact sortByLikesDesc_pairwise _
  · exact sortByLikesDesc_pairwise _
  · intro cfg now net ids2 dates2 opts st st2 raws hMiss hD hData hSort
    rw [searchTweetsM_net cfg now net ids2 dates2 opts st st2 raws hMiss hD hData]
    simp [searchNetData, hSort]

/-- C6 witness: a concrete two-element list is sorted non-increasingly. -/
theorem c6_witness :
    (sortByLikesDesc [likesTweet 1, likesTweet 2]).Pairwise likesGE :=
  (c6_popular_sort_stable [likesTweet 1, likesTweet 2] 0 0 "q" "1" "u" 3 168
    constIds constDates).1
